import Mathlib

/-!
Verification of the company-dashboard selection / filter / status-update
logic of the smart-hiring frontend (`src/frontend/company.js`) and the
focus-trap helper (`src/frontend/a11y.js`), as a shallow embedding.

The module-level mutable state of `company.js` is modelled as an explicit
`DashboardState`; DOM rendering and `fetch` effects are modelled as data
returned by the embedded functions (requests issued, notifications shown,
whether the record list is refreshed).  Network nondeterminism for the
bulk updater is an environment `net : String → RequestOutcome` giving each
request an outcome (fulfilled with an HTTP ok-flag, or rejected at the
transport level) together with an abstract settle time, so that the
`Promise.all` join can be stated and checked precisely.
-/

/-- One application record, as consumed by the dashboard.  Only the fields
the embedded functions read are kept (`status` drives filtering and
statistics; `id` identifies the record). -/
structure AppRecord where
  id : String
  status : String
deriving DecidableEq

/-- The five enumerated status values of the data model. -/
def statusValues : List String :=
  ["pending", "shortlisted", "interviewed", "hired", "rejected"]

/-- Module-scoped UI state of `company.js`: `currentStatusFilter` and the
selection set `selectedApplications` (a JS `Set`, modelled as its
insertion-ordered element list, duplicate-free by construction of the
operations below). -/
structure DashboardState where
  currentStatusFilter : String
  selectedApplications : List String
deriving DecidableEq

/-- `Set.add`: appends in insertion order, no duplicates. -/
def selAdd (s : List String) (id : String) : List String :=
  if id ∈ s then s else s ++ [id]

/-- `Set.delete`. -/
def selDelete (s : List String) (id : String) : List String :=
  s.filter (fun x => x != id)

/-- `toggleApplicationSelection(appId, checked)` from `company.js`:
adds `appId` when `checked`, else removes it (then re-renders). -/
def toggleApplicationSelection (appId : String) (checked : Bool)
    (st : DashboardState) : DashboardState :=
  if checked then
    { st with selectedApplications := selAdd st.selectedApplications appId }
  else
    { st with selectedApplications := selDelete st.selectedApplications appId }

/-- `toggleSelectAll(checked)` from `company.js`: for every checkbox row id
(the ids of the currently rendered rows, passed here explicitly), adds it
when `checked`, else removes it. -/
def toggleSelectAll (rowIds : List String) (checked : Bool)
    (st : DashboardState) : DashboardState :=
  { st with
    selectedApplications :=
      rowIds.foldl
        (fun s appId => if checked then selAdd s appId else selDelete s appId)
        st.selectedApplications }

/-- `clearSelection()` from `company.js`. -/
def clearSelection (st : DashboardState) : DashboardState :=
  { st with selectedApplications := [] }

/-- `filterByStatus(status)` from `company.js`: sets the filter and clears
the selection set. -/
def filterByStatus (status : String) (_st : DashboardState) : DashboardState :=
  { currentStatusFilter := status, selectedApplications := [] }

/-- The filtering step of `loadCompanyApplications` (`filteredApps`):
all records when the filter is `"all"`, else those whose status equals
the filter. -/
def visibleRecords (applications : List AppRecord)
    (currentStatusFilter : String) : List AppRecord :=
  if currentStatusFilter == "all" then applications
  else applications.filter (fun app => app.status == currentStatusFilter)

/-- The per-status statistics computed by `loadCompanyApplications`. -/
structure Stats where
  total : Nat
  pending : Nat
  shortlisted : Nat
  interviewed : Nat
  hired : Nat
  rejected : Nat
deriving DecidableEq

/-- The `stats` object of `loadCompanyApplications`, computed from the full
`applications` list. -/
def computeStats (applications : List AppRecord) : Stats :=
  { total := applications.length
    pending := (applications.filter (fun a => a.status == "pending")).length
    shortlisted := (applications.filter (fun a => a.status == "shortlisted")).length
    interviewed := (applications.filter (fun a => a.status == "interviewed")).length
    hired := (applications.filter (fun a => a.status == "hired")).length
    rejected := (applications.filter (fun a => a.status == "rejected")).length }

/-- The data `loadCompanyApplications` derives before rendering: the
filtered list (from the active filter) and the statistics (from the full
list; the source computes `stats` from `applications`, not from
`filteredApps`). -/
def renderData (applications : List AppRecord) (currentStatusFilter : String) :
    List AppRecord × Stats :=
  (visibleRecords applications currentStatusFilter, computeStats applications)

/-- `getStatusIcon(status)` from `company.js`: the five-entry icon table,
falling back to the neutral icon for any other input. -/
def getStatusIcon (status : String) : String :=
  if status == "pending" then "🔵"
  else if status == "shortlisted" then "💛"
  else if status == "interviewed" then "🟣"
  else if status == "hired" then "💚"
  else if status == "rejected" then "❌"
  else "⚪"

/-- A selection-set mutation gesture, as wired in the rendered table. -/
inductive SelOp
  | toggle (appId : String) (checked : Bool)
  | selectAll (rowIds : List String) (checked : Bool)
  | clear
deriving DecidableEq

/-- Dispatch one selection gesture to its handler. -/
def applySelOp : SelOp → DashboardState → DashboardState
  | .toggle appId checked, st => toggleApplicationSelection appId checked st
  | .selectAll rowIds checked, st => toggleSelectAll rowIds checked st
  | .clear, st => clearSelection st

/-- Apply a sequence of selection gestures in order. -/
def applySelOps (ops : List SelOp) (st : DashboardState) : DashboardState :=
  ops.foldl (fun s op => applySelOp op s) st

/-! ### Single status update (`updateApplicationStatus` / `confirmStatusUpdate`) -/

/-- Outcome of `await response.json()` on an error response: either the
body is unparseable (the parse throws with a message), or it parses and
may carry an `error` field. -/
inductive ParseResult
  | unparseable (msg : String)
  | parsed (errorField : Option String)
deriving DecidableEq

/-- Outcome of one `fetch` of the single-record status endpoint: the
promise rejects at the transport level, or it fulfils with a response
whose `ok` flag and body-parse outcome are given. -/
inductive SingleFetch
  | netError (msg : String)
  | response (ok : Bool) (body : ParseResult)
deriving DecidableEq

/-- `response.ok` without transport failure. -/
def SingleFetch.isSuccess : SingleFetch → Bool
  | .response true _ => true
  | _ => false

/-- Observable effects of one run of `confirmStatusUpdate`. -/
structure SingleUpdateResult where
  notifMessage : String
  notifKind : String
  refreshed : Bool
  modalRemoved : Bool
deriving DecidableEq

/-- `confirmStatusUpdate(appId, newStatus)` from `company.js`, as a
function of the fetch outcome.  On `response.ok`: success notification,
modal removed, `loadCompanyApplications()` re-fetch.  On a non-ok
response: parse the body and report its `error` field (or
`Unknown error`); if the parse throws, or the fetch rejects, the
`catch` reports the exception message.  No branch other than the ok
branch refreshes the list or removes the modal. -/
def confirmStatusUpdate (newStatus : String) (outcome : SingleFetch) :
    SingleUpdateResult :=
  match outcome with
  | .netError msg =>
      { notifMessage := "Failed to update status: " ++ msg
        notifKind := "error", refreshed := false, modalRemoved := false }
  | .response true _ =>
      { notifMessage := "✓ Status updated to " ++ newStatus
        notifKind := "success", refreshed := true, modalRemoved := true }
  | .response false (.parsed (some e)) =>
      { notifMessage := "Failed to update status: " ++ e
        notifKind := "error", refreshed := false, modalRemoved := false }
  | .response false (.parsed none) =>
      { notifMessage := "Failed to update status: Unknown error"
        notifKind := "error", refreshed := false, modalRemoved := false }
  | .response false (.unparseable msg) =>
      { notifMessage := "Failed to update status: " ++ msg
        notifKind := "error", refreshed := false, modalRemoved := false }

/-! ### Bulk status update (`bulkUpdateStatus` / `confirmBulkUpdate`) -/

/-- Observable effects of invoking `bulkUpdateStatus()` (the entry point,
before any confirmation). -/
structure BulkInvokeResult where
  notifications : List (String × String)
  requestsIssued : List String
  modalOpened : Bool
deriving DecidableEq

/-- `bulkUpdateStatus()` from `company.js`: with an empty selection it
shows a warning and returns; otherwise it only opens the confirmation
modal.  In neither case does it issue a request itself. -/
def bulkUpdateStatus (selectedApplications : List String) : BulkInvokeResult :=
  if selectedApplications.length == 0 then
    { notifications := [("No applications selected", "warning")]
      requestsIssued := [], modalOpened := false }
  else
    { notifications := [], requestsIssued := [], modalOpened := true }

/-- One PUT request to the single-record status endpoint
`/company/applications/{id}/status`. -/
structure UpdateRequest where
  appId : String
  status : String
  note : String
deriving DecidableEq

/-- Settlement of one bulk `fetch` promise: rejected (transport failure)
or fulfilled, carrying the HTTP `ok` flag (which `confirmBulkUpdate`
never inspects). -/
inductive FetchResult
  | rejected (msg : String)
  | fulfilled (ok : Bool)
deriving DecidableEq

/-- Whether the promise fulfilled (a non-ok HTTP response still fulfils). -/
def FetchResult.isFulfilled : FetchResult → Bool
  | .rejected _ => false
  | .fulfilled _ => true

/-- The rejection reason message (unused on fulfilment). -/
def FetchResult.rejectMsg : FetchResult → String
  | .rejected m => m
  | .fulfilled _ => ""

/-- Outcome of one request in the bulk batch: how it settles and at what
abstract time. -/
structure RequestOutcome where
  settleTime : Nat
  result : FetchResult
deriving DecidableEq

/-- The outcome settling strictly earliest in a list (first in dispatch
order on ties), as `Promise.all` uses for its rejection reason. -/
def earliestOutcome (l : List RequestOutcome) : Option RequestOutcome :=
  l.foldl
    (fun acc o =>
      match acc with
      | none => some o
      | some a => if o.settleTime < a.settleTime then some o else acc)
    none

/-- Observable effects of one run of `confirmBulkUpdate`. -/
structure BulkResult where
  requests : List UpdateRequest
  notifMessage : String
  notifKind : String
  notifTime : Nat
  selectionAfter : List String
  modalRemoved : Bool
  refreshTime : Option Nat
deriving DecidableEq

/-- `confirmBulkUpdate()` from `company.js`, as a function of the network
environment `net`.  It maps `Array.from(selectedApplications)` to one
fetch per id (all dispatched immediately) and awaits `Promise.all`:
if every promise fulfils, the join resolves once the last one has
(`foldl max`), then the success notification fires, the selection is
cleared, the modal removed and `loadCompanyApplications()` re-fetches;
if any promise rejects, `Promise.all` rejects with the earliest
rejection, the `catch` fires its error notification at that time, and
selection clear / modal removal / refresh are all skipped. -/
def confirmBulkUpdate (selectedApplications : List String)
    (newStatus note : String) (net : String → RequestOutcome) : BulkResult :=
  match earliestOutcome ((selectedApplications.map net).filter
      (fun o => !o.result.isFulfilled)) with
  | none =>
      { requests := selectedApplications.map
          (fun appId => UpdateRequest.mk appId newStatus note)
        notifMessage := "✓ Updated " ++ toString selectedApplications.length
          ++ " application(s)"
        notifKind := "success"
        notifTime := ((selectedApplications.map net).map
          RequestOutcome.settleTime).foldl max 0
        selectionAfter := [], modalRemoved := true
        refreshTime := some (((selectedApplications.map net).map
          RequestOutcome.settleTime).foldl max 0) }
  | some r =>
      { requests := selectedApplications.map
          (fun appId => UpdateRequest.mk appId newStatus note)
        notifMessage := "Failed to update applications: " ++ r.result.rejectMsg
        notifKind := "error", notifTime := r.settleTime
        selectionAfter := selectedApplications, modalRemoved := false
        refreshTime := none }

/-! ### Focus trap (`trapFocusInModal` in `a11y.js`) -/

/-- Where keyboard focus currently sits: on an element outside the modal
(identified abstractly by a number) or on the modal focusable with the
given index. -/
inductive Focus
  | outside (e : Nat)
  | inside (i : Nat)
deriving DecidableEq

/-- What `trapFocusInModal` records when it installs: the first and last
focusable indices and the previously focused element. -/
structure TrapInstall where
  firstIdx : Nat
  lastIdx : Nat
  previouslyFocused : Focus
deriving DecidableEq

/-- `trapFocusInModal(modal)` from `a11y.js`, over a modal with `n`
focusable descendants (indexed `0 .. n-1` in document order) and current
focus `cur`.  With zero focusables it returns early: no handler
installed, focus unmoved.  Otherwise it records the active element,
focuses the first focusable, and installs the keydown handler. -/
def trapFocusInModal (n : Nat) (cur : Focus) : Option TrapInstall × Focus :=
  if n = 0 then (none, cur)
  else (some { firstIdx := 0, lastIdx := n - 1, previouslyFocused := cur },
        Focus.inside 0)

/-- The installed keydown handler for a Tab key-press, combined with the
browser default it does not prevent: Shift+Tab on the first focusable
wraps to the last, Tab on the last wraps to the first (both with
`preventDefault`); otherwise the default sequential navigation moves to
the previous / next focusable descendant. -/
def modalKeydown (t : TrapInstall) (shift : Bool) (cur : Nat) : Nat :=
  if shift && cur == t.firstIdx then t.lastIdx
  else if !shift && cur == t.lastIdx then t.firstIdx
  else if shift then cur - 1 else cur + 1

/-! ### Helper lemmas -/

/-- The seed of a `foldl max` is a lower bound of the result. -/
lemma le_foldl_max (l : List Nat) : ∀ a : Nat, a ≤ l.foldl max a := by
  induction l with
  | nil => intro a; exact Nat.le_refl a
  | cons b t ih =>
      intro a
      exact Nat.le_trans (Nat.le_max_left a b) (ih (max a b))

/-- Every member of a list is bounded by its `foldl max`. -/
lemma mem_le_foldl_max (l : List Nat) :
    ∀ (a x : Nat), x ∈ l → x ≤ l.foldl max a := by
  induction l with
  | nil => intro a x hx; exact absurd hx (List.not_mem_nil x)
  | cons b t ih =>
      intro a x hx
      rcases List.mem_cons.mp hx with h | h
      · subst h
        exact Nat.le_trans (Nat.le_max_right a x) (le_foldl_max t (max a x))
      · exact ih (max a b) x h

/-- The fold inside `earliestOutcome` never drops back to `none` once the
accumulator is `some`. -/
lemma earliestOutcome_foldl_some (t : List RequestOutcome) :
    ∀ a : RequestOutcome,
      (t.foldl
        (fun acc o =>
          match acc with
          | none => some o
          | some a => if o.settleTime < a.settleTime then some o else acc)
        (some a)) ≠ none := by
  induction t with
  | nil => intro a h; exact Option.noConfusion h
  | cons o t ih =>
      intro a
      rw [List.foldl_cons]
      show List.foldl _
        (if o.settleTime < a.settleTime then some o else some a) t ≠ none
      split
      · exact ih o
      · exact ih a

/-- `earliestOutcome` returns `none` exactly on the empty list. -/
lemma earliestOutcome_eq_none (l : List RequestOutcome) :
    earliestOutcome l = none ↔ l = [] := by
  cases l with
  | nil => exact ⟨fun _ => rfl, fun _ => rfl⟩
  | cons o t =>
      constructor
      · intro h
        exact absurd h (earliestOutcome_foldl_some t o)
      · intro h
        exact List.noConfusion h

/-- Each selection gesture leaves `currentStatusFilter` untouched. -/
lemma applySelOp_preserves_filter (op : SelOp) (st : DashboardState) :
    (applySelOp op st).currentStatusFilter = st.currentStatusFilter := by
  cases op with
  | toggle appId checked => cases checked <;> rfl
  | selectAll rowIds checked => rfl
  | clear => rfl

/-- The five per-status counts of `computeStats` sum to the length of the
list when every status is one of the five enumerated values. -/
lemma computeStats_sum : ∀ apps : List AppRecord,
    (∀ a ∈ apps, a.status ∈ statusValues) →
    (computeStats apps).pending + (computeStats apps).shortlisted +
      (computeStats apps).interviewed + (computeStats apps).hired +
      (computeStats apps).rejected = (computeStats apps).total := by
  intro apps
  induction apps with
  | nil => intro _; rfl
  | cons a t ih =>
      intro h
      have ha := h a (List.mem_cons_self a t)
      have ih' := ih (fun x hx => h x (List.mem_cons_of_mem a hx))
      simp only [statusValues, List.mem_cons, List.not_mem_nil, or_false] at ha
      simp only [computeStats, List.filter_cons, List.length_cons] at ih' ⊢
      rcases ha with h1 | h1 | h1 | h1 | h1 <;>
        simp only [h1] <;> simp <;> omega


/-! ### Claim theorems -/

/-- C6: for every prior state and every tag, `filterByStatus` sets the
active filter to the chosen tag and leaves the Selection Set empty. -/
theorem filterByStatus_sets_filter_clears_selection
    (st : DashboardState) (tag : String) :
    (filterByStatus tag st).currentStatusFilter = tag ∧
    (filterByStatus tag st).selectedApplications = [] :=
  ⟨rfl, rfl⟩

/-- C10: every sequence of Selection Set mutations (toggle, select-all,
clear) leaves the active status filter unchanged. -/
theorem selOps_preserve_filter (ops : List SelOp) (st : DashboardState) :
    (applySelOps ops st).currentStatusFilter = st.currentStatusFilter := by
  induction ops generalizing st with
  | nil => rfl
  | cons op t ih =>
      calc (applySelOps (op :: t) st).currentStatusFilter
          = (applySelOps t (applySelOp op st)).currentStatusFilter := rfl
        _ = (applySelOp op st).currentStatusFilter := ih (applySelOp op st)
        _ = st.currentStatusFilter := applySelOp_preserves_filter op st

/-- C7: `visibleRecords` with tag `"all"` is the identity; with any other
tag it is exactly the order-preserving sublist of records whose status
equals the tag. -/
theorem visibleRecords_spec (apps : List AppRecord) (tag : String) :
    (tag = "all" → visibleRecords apps tag = apps) ∧
    (tag ≠ "all" →
      List.Sublist (visibleRecords apps tag) apps ∧
      ∀ a, a ∈ visibleRecords apps tag ↔ a ∈ apps ∧ a.status = tag) := by
  constructor
  · intro h
    subst h
    simp [visibleRecords]
  · intro h
    have hbeq : (tag == "all") = false := by
      simp only [beq_eq_false_iff_ne, ne_eq]
      exact h
    constructor
    · simp only [visibleRecords, hbeq, Bool.false_eq_true, if_false]
      exact List.filter_sublist apps
    · intro a
      simp [visibleRecords, hbeq, List.mem_filter, beq_iff_eq]

/-- C7 witness: concrete evaluations of `visibleRecords_spec`. -/
theorem visibleRecords_spec_witness :
    visibleRecords
        [AppRecord.mk "a" "pending", AppRecord.mk "b" "hired"] "all"
      = [AppRecord.mk "a" "pending", AppRecord.mk "b" "hired"] ∧
    List.Sublist
      (visibleRecords
        [AppRecord.mk "a" "pending", AppRecord.mk "b" "hired"] "pending")
      [AppRecord.mk "a" "pending", AppRecord.mk "b" "hired"] ∧
    (AppRecord.mk "a" "pending" ∈
        visibleRecords
          [AppRecord.mk "a" "pending", AppRecord.mk "b" "hired"] "pending" ↔
      AppRecord.mk "a" "pending" ∈
          [AppRecord.mk "a" "pending", AppRecord.mk "b" "hired"] ∧
        (AppRecord.mk "a" "pending").status = "pending") := by
  refine ⟨?_, ?_, ?_⟩
  · exact (visibleRecords_spec
      [AppRecord.mk "a" "pending", AppRecord.mk "b" "hired"] "all").1 rfl
  · exact ((visibleRecords_spec
      [AppRecord.mk "a" "pending", AppRecord.mk "b" "hired"] "pending").2
        (by decide)).1
  · exact ((visibleRecords_spec
      [AppRecord.mk "a" "pending", AppRecord.mk "b" "hired"] "pending").2
        (by decide)).2 (AppRecord.mk "a" "pending")

/-- C8: `getStatusIcon` is total and returns the neutral icon for every
status outside the five enumerated values. -/
theorem getStatusIcon_unknown_neutral (s : String)
    (h : s ∉ statusValues) :
    getStatusIcon s = "⚪" := by
  simp only [statusValues, List.mem_cons, List.not_mem_nil, or_false,
    not_or] at h
  obtain ⟨h1, h2, h3, h4, h5⟩ := h
  simp [getStatusIcon, h1, h2, h3, h4, h5]

/-- C8 witness: the unmapped value `"archived"` renders neutrally. -/
theorem getStatusIcon_unknown_neutral_witness :
    getStatusIcon "archived" = "⚪" :=
  getStatusIcon_unknown_neutral "archived" (by decide)

/-- C5: the statistics are computed from the full record list regardless of
the active filter, and when every status is one of the five enumerated
values the five per-status counts partition the list (they sum to the
total record count). -/
theorem computeStats_independent_and_partition
    (apps : List AppRecord) (f : String)
    (h : ∀ a ∈ apps, a.status ∈ statusValues) :
    (renderData apps f).2 = computeStats apps ∧
    (computeStats apps).pending + (computeStats apps).shortlisted +
      (computeStats apps).interviewed + (computeStats apps).hired +
      (computeStats apps).rejected = (computeStats apps).total :=
  ⟨rfl, computeStats_sum apps h⟩

/-- C5 witness: the spec §8 example list, rendered under the `"pending"`
filter. -/
theorem computeStats_independent_and_partition_witness :
    (renderData
        [AppRecord.mk "a" "pending", AppRecord.mk "b" "pending",
          AppRecord.mk "c" "hired"] "pending").2
      = computeStats
          [AppRecord.mk "a" "pending", AppRecord.mk "b" "pending",
            AppRecord.mk "c" "hired"] ∧
    (computeStats
        [AppRecord.mk "a" "pending", AppRecord.mk "b" "pending",
          AppRecord.mk "c" "hired"]).pending +
      (computeStats
        [AppRecord.mk "a" "pending", AppRecord.mk "b" "pending",
          AppRecord.mk "c" "hired"]).shortlisted +
      (computeStats
        [AppRecord.mk "a" "pending", AppRecord.mk "b" "pending",
          AppRecord.mk "c" "hired"]).interviewed +
      (computeStats
        [AppRecord.mk "a" "pending", AppRecord.mk "b" "pending",
          AppRecord.mk "c" "hired"]).hired +
      (computeStats
        [AppRecord.mk "a" "pending", AppRecord.mk "b" "pending",
          AppRecord.mk "c" "hired"]).rejected
      = (computeStats
          [AppRecord.mk "a" "pending", AppRecord.mk "b" "pending",
            AppRecord.mk "c" "hired"]).total :=
  computeStats_independent_and_partition
    [AppRecord.mk "a" "pending", AppRecord.mk "b" "pending",
      AppRecord.mk "c" "hired"] "pending" (by decide)

/-- C3: invoking the bulk update action with an empty Selection Set
produces exactly the warning notification, issues zero requests, and does
not open the confirmation modal (so no later confirmation can issue
requests either). -/
theorem bulkUpdateStatus_empty_selection (sel : List String)
    (h : sel = []) :
    (bulkUpdateStatus sel).notifications
        = [("No applications selected", "warning")] ∧
    (bulkUpdateStatus sel).requestsIssued = [] ∧
    (bulkUpdateStatus sel).modalOpened = false := by
  subst h
  exact ⟨rfl, rfl, rfl⟩

/-- C3 witness: the empty selection, evaluated. -/
theorem bulkUpdateStatus_empty_selection_witness :
    (bulkUpdateStatus []).notifications
        = [("No applications selected", "warning")] ∧
    (bulkUpdateStatus []).requestsIssued = [] ∧
    (bulkUpdateStatus []).modalOpened = false :=
  bulkUpdateStatus_empty_selection [] rfl

/-- C4: every failing single-record status commit — non-success response
or transport failure — leaves the record list unrefreshed and shows a
failure notification: the server's `error` field when the body parses
and carries one, the generic `Unknown error` text when it parses without
one, and the exception message when the body is unparseable or the
request rejects.  A failure is never a silent no-op. -/
theorem confirmStatusUpdate_failure (newStatus : String)
    (outcome : SingleFetch) (h : outcome.isSuccess = false) :
    (confirmStatusUpdate newStatus outcome).refreshed = false ∧
    (confirmStatusUpdate newStatus outcome).notifKind = "error" ∧
    (∀ e, outcome = SingleFetch.response false (ParseResult.parsed (some e)) →
      (confirmStatusUpdate newStatus outcome).notifMessage
        = "Failed to update status: " ++ e) ∧
    (outcome = SingleFetch.response false (ParseResult.parsed none) →
      (confirmStatusUpdate newStatus outcome).notifMessage
        = "Failed to update status: Unknown error") ∧
    (∀ m, outcome = SingleFetch.netError m →
      (confirmStatusUpdate newStatus outcome).notifMessage
        = "Failed to update status: " ++ m) := by
  match outcome with
  | .netError msg =>
      refine ⟨rfl, rfl, ?_, ?_, ?_⟩
      · intro e he; exact SingleFetch.noConfusion he
      · intro he; exact SingleFetch.noConfusion he
      · intro m hm
        cases hm
        rfl
  | .response true body =>
      exact absurd h (by simp [SingleFetch.isSuccess])
  | .response false (.parsed (some e)) =>
      refine ⟨rfl, rfl, ?_, ?_, ?_⟩
      · intro x hx
        cases hx
        rfl
      · intro hx; simp at hx
      · intro m hm; exact SingleFetch.noConfusion hm
  | .response false (.parsed none) =>
      refine ⟨rfl, rfl, ?_, ?_, ?_⟩
      · intro x hx; simp at hx
      · intro _; rfl
      · intro m hm; exact SingleFetch.noConfusion hm
  | .response false (.unparseable msg) =>
      refine ⟨rfl, rfl, ?_, ?_, ?_⟩
      · intro x hx; simp at hx
      · intro hx; simp at hx
      · intro m hm; exact SingleFetch.noConfusion hm

/-- C4 witness: a non-ok response whose body carries
`error = "Not authorized"`, evaluated. -/
theorem confirmStatusUpdate_failure_witness :
    (confirmStatusUpdate "hired"
        (SingleFetch.response false
          (ParseResult.parsed (some "Not authorized")))).refreshed = false ∧
    (confirmStatusUpdate "hired"
        (SingleFetch.response false
          (ParseResult.parsed (some "Not authorized")))).notifKind
      = "error" ∧
    (confirmStatusUpdate "hired"
        (SingleFetch.response false
          (ParseResult.parsed (some "Not authorized")))).notifMessage
      = "Failed to update status: Not authorized" := by
  have h := confirmStatusUpdate_failure "hired"
    (SingleFetch.response false (ParseResult.parsed (some "Not authorized")))
    (by decide)
  exact ⟨h.1, h.2.1, h.2.2.1 "Not authorized" rfl⟩

/-- With every request fulfilled, the bulk batch has no rejection. -/
lemma bulk_rejections_nil (ids : List String) (net : String → RequestOutcome)
    (hall : ∀ i ∈ ids, (net i).result.isFulfilled = true) :
    (ids.map net).filter (fun o => !o.result.isFulfilled) = [] := by
  rw [List.filter_eq_nil_iff]
  intro o ho
  obtain ⟨i, hi, rfl⟩ := List.mem_map.mp ho
  simp [hall i hi]

/-- A rejected request puts a rejection in the bulk batch. -/
lemma bulk_rejections_ne_nil (ids : List String)
    (net : String → RequestOutcome)
    (hex : ∃ i ∈ ids, (net i).result.isFulfilled = false) :
    (ids.map net).filter (fun o => !o.result.isFulfilled) ≠ [] := by
  obtain ⟨i, hi, hf⟩ := hex
  intro hnil
  have hmem : net i ∈ (ids.map net).filter (fun o => !o.result.isFulfilled) := by
    rw [List.mem_filter]
    exact ⟨List.mem_map_of_mem net hi, by simp [hf]⟩
  rw [hnil] at hmem
  exact List.not_mem_nil (net i) hmem

/-- Evaluation of `confirmBulkUpdate` when every promise fulfils: the
`Promise.all` join resolves, the success path runs. -/
lemma confirmBulkUpdate_all_fulfilled (ids : List String)
    (newStatus note : String) (net : String → RequestOutcome)
    (hall : ∀ i ∈ ids, (net i).result.isFulfilled = true) :
    confirmBulkUpdate ids newStatus note net =
      { requests := ids.map (fun appId => UpdateRequest.mk appId newStatus note)
        notifMessage := "✓ Updated " ++ toString ids.length ++ " application(s)"
        notifKind := "success"
        notifTime := ((ids.map net).map RequestOutcome.settleTime).foldl max 0
        selectionAfter := [], modalRemoved := true
        refreshTime :=
          some (((ids.map net).map RequestOutcome.settleTime).foldl max 0) } := by
  unfold confirmBulkUpdate
  rw [bulk_rejections_nil ids net hall]
  rfl

/-- Evaluation of `confirmBulkUpdate` when some promise rejects: the
`catch` path runs at the earliest rejection. -/
lemma confirmBulkUpdate_rejected (ids : List String)
    (newStatus note : String) (net : String → RequestOutcome)
    (r : RequestOutcome)
    (h : earliestOutcome ((ids.map net).filter
        (fun o => !o.result.isFulfilled)) = some r) :
    confirmBulkUpdate ids newStatus note net =
      { requests := ids.map (fun appId => UpdateRequest.mk appId newStatus note)
        notifMessage := "Failed to update applications: " ++ r.result.rejectMsg
        notifKind := "error", notifTime := r.settleTime
        selectionAfter := ids, modalRemoved := false
        refreshTime := none } := by
  unfold confirmBulkUpdate
  rw [h]

/-- With a rejected request in the batch, `earliestOutcome` of the
rejections yields some outcome. -/
lemma bulk_earliest_some (ids : List String) (net : String → RequestOutcome)
    (hex : ∃ i ∈ ids, (net i).result.isFulfilled = false) :
    ∃ r, earliestOutcome ((ids.map net).filter
        (fun o => !o.result.isFulfilled)) = some r := by
  rcases hres : earliestOutcome ((ids.map net).filter
      (fun o => !o.result.isFulfilled)) with _ | r
  · exact absurd ((earliestOutcome_eq_none _).mp hres)
      (bulk_rejections_ne_nil ids net hex)
  · exact ⟨r, rfl⟩

/-- The dispatched request set of `confirmBulkUpdate` is the same on both
join outcomes. -/
lemma confirmBulkUpdate_requests (ids : List String)
    (newStatus note : String) (net : String → RequestOutcome) :
    (confirmBulkUpdate ids newStatus note net).requests
      = ids.map (fun appId => UpdateRequest.mk appId newStatus note) := by
  unfold confirmBulkUpdate
  cases earliestOutcome ((ids.map net).filter (fun o => !o.result.isFulfilled))
    <;> rfl

/-- A two-request bulk batch in which the request for `"a"` rejects at the
transport level at time 1 while the request for `"b"` fulfils at time 5. -/
def bulkCexNet : String → RequestOutcome := fun id =>
  if id == "a" then
    { settleTime := 1, result := FetchResult.rejected "Failed to fetch" }
  else
    { settleTime := 5, result := FetchResult.fulfilled true }

/-- The selection for the mixed-outcome batch. -/
def bulkCexSelection : List String := ["a", "b"]

/-- A two-request bulk batch in which both promises fulfil, the second
with a non-ok HTTP response, settling at times 2 and 7. -/
def bulkWitNet : String → RequestOutcome := fun id =>
  if id == "x" then { settleTime := 2, result := FetchResult.fulfilled true }
  else { settleTime := 7, result := FetchResult.fulfilled false }

/-- The selection for the all-fulfilled batch. -/
def bulkWitSelection : List String := ["x", "y"]

/-- C1 counterexample: in the mixed batch, the outcome notification fires
at time 1 — strictly before the still-pending request for `"b"` settles
at time 5 — because `Promise.all` rejects at the first rejection rather
than waiting for every request to settle. -/
theorem confirmBulkUpdate_notifies_before_settle_cex :
    "b" ∈ bulkCexSelection ∧
    (confirmBulkUpdate bulkCexSelection "hired" "" bulkCexNet).notifTime
      < (bulkCexNet "b").settleTime := by decide

/-- C1 (amended): a confirmed bulk update issues exactly one request per
selected id to the single-record endpoint; when every request fulfils the
aggregate notification and the refresh wait for all of them (they fire at
the latest settle time); but when any request rejects, the error
notification fires at the earliest rejection — possibly while other
requests are pending — and the post-bulk refresh never fires. -/
theorem confirmBulkUpdate_join (ids : List String) (newStatus note : String)
    (net : String → RequestOutcome) :
    (confirmBulkUpdate ids newStatus note net).requests
        = ids.map (fun appId => UpdateRequest.mk appId newStatus note) ∧
    ((∀ i ∈ ids, (net i).result.isFulfilled = true) →
      (∀ i ∈ ids, (net i).settleTime ≤
          (confirmBulkUpdate ids newStatus note net).notifTime) ∧
      (confirmBulkUpdate ids newStatus note net).refreshTime
          = some (confirmBulkUpdate ids newStatus note net).notifTime) ∧
    ((∃ i ∈ ids, (net i).result.isFulfilled = false) →
      (confirmBulkUpdate ids newStatus note net).refreshTime = none ∧
      (confirmBulkUpdate ids newStatus note net).notifKind = "error") := by
  refine ⟨confirmBulkUpdate_requests ids newStatus note net, ?_, ?_⟩
  · intro hall
    rw [confirmBulkUpdate_all_fulfilled ids newStatus note net hall]
    refine ⟨?_, rfl⟩
    intro i hi
    exact mem_le_foldl_max ((ids.map net).map RequestOutcome.settleTime) 0
      (net i).settleTime
      (List.mem_map_of_mem RequestOutcome.settleTime
        (List.mem_map_of_mem net hi))
  · intro hex
    obtain ⟨r, hr⟩ := bulk_earliest_some ids net hex
    rw [confirmBulkUpdate_rejected ids newStatus note net r hr]
    exact ⟨rfl, rfl⟩

/-- C1 witness: the all-fulfilled batch, evaluated through
`confirmBulkUpdate_join`. -/
theorem confirmBulkUpdate_join_witness :
    (confirmBulkUpdate bulkWitSelection "hired" "" bulkWitNet).requests
        = [UpdateRequest.mk "x" "hired" "", UpdateRequest.mk "y" "hired" ""] ∧
    (bulkWitNet "y").settleTime
        ≤ (confirmBulkUpdate bulkWitSelection "hired" "" bulkWitNet).notifTime ∧
    (confirmBulkUpdate bulkWitSelection "hired" "" bulkWitNet).refreshTime
        = some (confirmBulkUpdate bulkWitSelection "hired" ""
            bulkWitNet).notifTime := by
  have h := confirmBulkUpdate_join bulkWitSelection "hired" "" bulkWitNet
  exact ⟨h.1.trans rfl, (h.2.1 (by decide)).1 "y" (by decide),
    (h.2.1 (by decide)).2⟩

/-- C2 counterexample: in the mixed batch one request rejected, and on
completion the Selection Set is not cleared and no refresh is triggered —
refuting "cleared and refreshed regardless of individual failures". -/
theorem confirmBulkUpdate_failure_no_cleanup_cex :
    ¬ ((confirmBulkUpdate bulkCexSelection "hired" "" bulkCexNet).selectionAfter
          = [] ∧
       (confirmBulkUpdate bulkCexSelection "hired" "" bulkCexNet).refreshTime
          ≠ none) := by decide

/-- C2 (amended): when every bulk request fulfils — even if some responses
are non-success HTTP responses, which `confirmBulkUpdate` never inspects —
the Selection Set is cleared and a refresh is triggered; when any request
rejects at the transport level, the `catch` path leaves the Selection Set
intact and triggers no refresh. -/
theorem confirmBulkUpdate_completion_effects (ids : List String)
    (newStatus note : String) (net : String → RequestOutcome) :
    ((∀ i ∈ ids, (net i).result.isFulfilled = true) →
      (confirmBulkUpdate ids newStatus note net).selectionAfter = [] ∧
      (confirmBulkUpdate ids newStatus note net).refreshTime ≠ none) ∧
    ((∃ i ∈ ids, (net i).result.isFulfilled = false) →
      (confirmBulkUpdate ids newStatus note net).selectionAfter = ids ∧
      (confirmBulkUpdate ids newStatus note net).refreshTime = none) := by
  constructor
  · intro hall
    rw [confirmBulkUpdate_all_fulfilled ids newStatus note net hall]
    exact ⟨rfl, by simp⟩
  · intro hex
    obtain ⟨r, hr⟩ := bulk_earliest_some ids net hex
    rw [confirmBulkUpdate_rejected ids newStatus note net r hr]
    exact ⟨rfl, rfl⟩

/-- C2 witness: the all-fulfilled batch (with one non-ok HTTP response)
clears the selection and schedules the refresh. -/
theorem confirmBulkUpdate_completion_effects_witness :
    (confirmBulkUpdate bulkWitSelection "hired" "" bulkWitNet).selectionAfter
        = [] ∧
    (confirmBulkUpdate bulkWitSelection "hired" "" bulkWitNet).refreshTime
        ≠ none := by
  have h := confirmBulkUpdate_completion_effects bulkWitSelection "hired" ""
    bulkWitNet
  exact h.1 (by decide)

/-- C9: with zero focusable descendants the trap is not installed and focus
is unmoved; with at least one, the trap is installed focusing the first
focusable, every Tab / Shift+Tab keydown keeps focus inside the focusable
index range, Tab on the last focusable wraps to the first, and Shift+Tab
on the first wraps to the last. -/
theorem trapFocusInModal_invariant :
    (∀ cur : Focus, trapFocusInModal 0 cur = (none, cur)) ∧
    (∀ (n : Nat) (cur : Focus), 0 < n →
      trapFocusInModal n cur
        = (some { firstIdx := 0, lastIdx := n - 1, previouslyFocused := cur },
           Focus.inside 0)) ∧
    (∀ (n : Nat) (cur : Focus) (shift : Bool) (i : Nat), i < n →
      modalKeydown
        { firstIdx := 0, lastIdx := n - 1, previouslyFocused := cur }
        shift i < n) ∧
    (∀ (n : Nat) (cur : Focus), 0 < n →
      modalKeydown
        { firstIdx := 0, lastIdx := n - 1, previouslyFocused := cur }
        false (n - 1) = 0 ∧
      modalKeydown
        { firstIdx := 0, lastIdx := n - 1, previouslyFocused := cur }
        true 0 = n - 1) := by
  refine ⟨fun cur => rfl, ?_, ?_, ?_⟩
  · intro n cur hn
    unfold trapFocusInModal
    rw [if_neg (Nat.pos_iff_ne_zero.mp hn)]
  · intro n cur shift i hi
    simp only [modalKeydown]
    split_ifs with h1 h2 h3
    · omega
    · omega
    · omega
    · have hs : shift = false := by
        revert h3; cases shift <;> simp
      rw [hs] at h2
      simp only [Bool.not_false, Bool.true_and, beq_iff_eq] at h2
      omega
  · intro n cur hn
    constructor
    · simp [modalKeydown]
    · simp [modalKeydown]

/-- C9 witness: a modal with three focusables (and the empty modal),
evaluated through `trapFocusInModal_invariant`. -/
theorem trapFocusInModal_invariant_witness :
    trapFocusInModal 0 (Focus.outside 9) = (none, Focus.outside 9) ∧
    trapFocusInModal 3 (Focus.outside 9)
      = (some { firstIdx := 0, lastIdx := 2,
                previouslyFocused := Focus.outside 9 },
         Focus.inside 0) ∧
    modalKeydown
      { firstIdx := 0, lastIdx := 2, previouslyFocused := Focus.outside 9 }
      false 2 = 0 ∧
    modalKeydown
      { firstIdx := 0, lastIdx := 2, previouslyFocused := Focus.outside 9 }
      true 0 = 2 ∧
    modalKeydown
      { firstIdx := 0, lastIdx := 2, previouslyFocused := Focus.outside 9 }
      false 1 < 3 := by
  have h := trapFocusInModal_invariant
  refine ⟨h.1 (Focus.outside 9), h.2.1 3 (Focus.outside 9) (by decide),
    ?_, ?_, h.2.2.1 3 (Focus.outside 9) false 1 (by decide)⟩
  · exact (h.2.2.2 3 (Focus.outside 9) (by decide)).1
  · exact (h.2.2.2 3 (Focus.outside 9) (by decide)).2
